import Mathlib

/-!
# PiFinder interaction core: shallow embedding and verification

This file embeds, in Lean 4, the interaction core of the PiFinder handheld
celestial-pointing instrument (the `UILocate` module of
src/python/PiFinder/ui/locate.py and the `UICatalog` module of
src/python/PiFinder/uimodules.py), and proves or refutes the specification
claims about it.

Python floats are modelled as rationals, Python's floored `%` as an explicit
floored modulus, Python `None` as `Option.none`, and the Python dicts
carrying catalog records as a structure.  Fallible operations (Python
exceptions) return `Option`.  The external collaborators (astrometry,
persistence, catalog store) are parameters of the embedded operations.
-/

namespace PiFinder

/-- A catalog record as passed around by the UI modules: a row with catalog
code, numeric designation, object type, constellation and equatorial
coordinates (`ra`, `dec` in degrees, modelled as rationals). -/
structure CatalogObject where
  catalog : String
  designation : Nat
  obj_type : String
  const : String
  ra : ℚ
  dec : ℚ
deriving DecidableEq

/-- Python's floored modulus on floats (here rationals):
`a % b = a - b * floor (a / b)`.  This is the `%` used in `aim_degrees`
(`(az_diff + 180) % 360 - 180`). -/
def pymod (a b : ℚ) : ℚ := a - b * (⌊a / b⌋ : ℤ)

/-- The normalization applied to both pointing deltas in
`UILocate.aim_degrees` (src/python/PiFinder/ui/locate.py lines 171-177):
`x ↦ ((x + 180) % 360) - 180` with Python's floored `%`. -/
def normalize_signed_180 (x : ℚ) : ℚ := pymod (x + 180) 360 - 180

/-- Opaque timestamp handed to the astrometry collaborator; only its
presence/absence matters to the embedded code. -/
abbrev DateTimeStamp := Nat

/-- The observer location snapshot (`shared_state.location()`), fields as
read by `aim_degrees`. -/
structure Location where
  lat : ℚ
  lon : ℚ
  altitude : ℚ
deriving DecidableEq

/-- The solver's solution snapshot (`shared_state.solution()`).  `Alt` may
be `none` (the integrator has not filled horizontal coordinates yet), which
is Python `None`; `aim_degrees` tests its truthiness
(`if solution["Alt"]`), which is also false at the float `0.0`. -/
structure Solution where
  Az : ℚ
  Alt : Option ℚ
deriving DecidableEq

/-- The shared positioning state read by `aim_degrees`: each of the three
reads may yield Python `None`. -/
structure SharedState where
  solution : Option Solution
  location : Option Location
  datetime : Option DateTimeStamp
deriving DecidableEq

/-- The possible results of `UILocate.aim_degrees`:
`nonePair` is the explicit `return None, None` of the `else` branch;
`noReturn` is the implicit Python `None` when the body falls through (the
three reads truthy but `solution["Alt"]` falsy);
`deltas az alt` is the normal `return az_diff, alt_diff`. -/
inductive AimResult where
  | nonePair : AimResult
  | noReturn : AimResult
  | deltas (az alt : ℚ) : AimResult
deriving DecidableEq

/-- Truthiness of the Python value `solution["Alt"]` (an optional float):
falsy when `None` or exactly `0.0`. -/
def altTruthy : Option ℚ → Bool
  | none => false
  | some a => a != 0

/-- Embedding of `UILocate.aim_degrees` (src/python/PiFinder/ui/locate.py lines
149-179).  The astrometry collaborator (`Skyfield_utils.set_location`
followed by `radec_to_altaz`) is the black-box parameter `radec_to_altaz`,
returning the `(alt, az)` pair of the target's horizontal coordinates at
the given location and time. -/
def aim_degrees (ss : SharedState) (target : CatalogObject)
    (radec_to_altaz : Location → ℚ → ℚ → DateTimeStamp → ℚ × ℚ) : AimResult :=
  match ss.location, ss.datetime, ss.solution with
  | some loc, some dt, some sol =>
    match sol.Alt with
    | some alt =>
      if alt ≠ 0 then
        let ta := radec_to_altaz loc target.ra target.dec dt
        AimResult.deltas (normalize_signed_180 (ta.2 - sol.Az))
          (normalize_signed_180 (ta.1 - alt))
      else AimResult.noReturn
    | none => AimResult.noReturn
  | _, _, _ => AimResult.nonePair

/-- What the pointing block of `UILocate.update` renders. -/
inductive PointingDisplay where
  | placeholder : PointingDisplay
  | numbers (az alt : ℚ) : PointingDisplay
deriving DecidableEq

/-- The decision made by `UILocate.update` on the pointing block
(src/python/PiFinder/ui/locate.py lines 219-222): unpack `aim_degrees()`
into `point_az, point_alt`, then `if not point_az:` render the "---.-" /
"--.-" placeholder, else render the pointing numbers.  The result `none`
models the `TypeError` raised when unpacking the implicit `None`
(`noReturn`); `not point_az` is true when `point_az` is `None` or the
float `0.0`. -/
def update_pointing (aim : AimResult) : Option PointingDisplay :=
  match aim with
  | AimResult.nonePair => some PointingDisplay.placeholder
  | AimResult.noReturn => none
  | AimResult.deltas az alt =>
      if az = 0 then some PointingDisplay.placeholder
      else some (PointingDisplay.numbers az alt)

/-- The `ui_state` slice owned by the Locate screen plus its
`target_index` attribute: the two target lists, the active list (Python
compares and assigns list values; within the embedded operations no list
is mutated in place, so plain list values are a faithful model), the
cursor index (`None` or an index) and the shared target. -/
structure LocState where
  history_list : List CatalogObject
  observing_list : List CatalogObject
  active_list : List CatalogObject
  target_index : Option Nat
  target : Option CatalogObject
deriving DecidableEq

/-- Embedding of `UILocate.key_b` (src/python/PiFinder/ui/locate.py lines 96-116):
switch target lists.  The code first sets `target_index = None`, then, if
the destination list is non-empty, repoints `active_list`, places the
cursor (first element when switching to observing, last when switching to
history) and sets the shared target to `active_list[target_index]`;
otherwise it reports a message.  Returns the new state and the optional
message. -/
def key_b (s : LocState) : LocState × Option String :=
  if s.active_list = s.history_list then
    if h : 0 < s.observing_list.length then
      ({ s with active_list := s.observing_list, target_index := some 0,
                target := some (s.observing_list.get ⟨0, h⟩) }, none)
    else ({ s with target_index := none }, some "No Obs List")
  else
    if h : 0 < s.history_list.length then
      ({ s with active_list := s.history_list,
                target_index := some (s.history_list.length - 1),
                target := some (s.history_list.get
                  ⟨s.history_list.length - 1, Nat.sub_lt h Nat.one_pos⟩) },
       none)
    else ({ s with target_index := none }, some "No History")

/-- The outcome of `obslist.read_list(name)` as consumed by `load_list`:
either `result == "error"` with a message, or a parsed catalog plus the
number of records present in the source. -/
inductive LoadResult where
  | error (message : String) : LoadResult
  | ok (catalog : List CatalogObject) (objects_parsed : Nat) : LoadResult
deriving DecidableEq

/-- Embedding of `UILocate.load_list` (src/python/PiFinder/ui/locate.py lines 73-94).
`read_result` stands for `obslist.read_list(option)`, the persistence
collaborator's answer.  Returns the new state and the user message. -/
def load_list (s : LocState) (option : String) (read_result : LoadResult) :
    LocState × Option String :=
  if option = "CANCEL" then (s, none)
  else
    match read_result with
    | LoadResult.error m => (s, some ("Err! " ++ m))
    | LoadResult.ok cat parsed =>
      if h : 0 < cat.length then
        ({ s with observing_list := cat, active_list := cat,
                  target_index := some 0, target := some (cat.get ⟨0, h⟩) },
         some ("Loaded " ++ toString cat.length ++ " of " ++ toString parsed))
      else (s, some "No matches")

/-- Embedding of `UILocate.save_list` (src/python/PiFinder/ui/locate.py lines 55-71).
The first component is the list handed to `obslist.write_list` (`none`
when no write is issued); the second is the user message.  `ss_count` is
the screenshot counter interpolated into the messages; the emptiness check
the code performs is on `active_list`, whatever the scope. -/
def save_list (s : LocState) (option : String) (ss_count : Nat) :
    Option (List CatalogObject) × Option String :=
  if option = "CANCEL" then (none, none)
  else if s.active_list.length = 0 then (none, some "No objects")
  else if option = "History" then
    (some s.history_list, some ("Saved list - " ++ toString ss_count))
  else (some s.observing_list, some ("Saved list - " ++ toString ss_count))

/-- The first clamp of `scroll_target_history`:
`if self.target_index >= len(...): self.target_index = len(...) - 1`. -/
def pyClampHigh (len : Nat) (j : ℤ) : ℤ :=
  if (len : ℤ) ≤ j then (len : ℤ) - 1 else j

/-- The second clamp of `scroll_target_history`:
`if self.target_index < 0: self.target_index = 0`. -/
def pyClampLow (j : ℤ) : ℤ := if j < 0 then 0 else j

/-- The index `scroll_target_history` ends up with before indexing into
the active list: `target_index + direction`, clamped first at the top,
then at the bottom. -/
def scrollIndex (len i : Nat) (direction : ℤ) : ℤ :=
  pyClampLow (pyClampHigh len ((i : ℤ) + direction))

/-- Embedding of `UILocate.scroll_target_history` (src/python/PiFinder/ui/locate.py
lines 252-264): if the cursor is set, add `direction`, clamp first at the
top (`index >= len` becomes `len - 1`) then at the bottom (`index < 0`
becomes `0`), and set the shared target to `active_list[index]`.  The
result is `none` when the final indexing would raise `IndexError` (only
possible when the active list is empty). -/
def scroll_target_history (s : LocState) (direction : ℤ) : Option LocState :=
  match s.target_index with
  | none => some s
  | some i =>
    if h : (scrollIndex s.active_list.length i direction).toNat <
        s.active_list.length then
      some { s with
        target_index := some (scrollIndex s.active_list.length i direction).toNat,
        target := some (s.active_list.get
          ⟨(scrollIndex s.active_list.length i direction).toNat, h⟩) }
    else none

/-- Embedding of `UILocate.active` (src/python/PiFinder/ui/locate.py lines 181-189):
on screen re-entry, recompute `target_index` as the first index of the
shared target in the active list (`list.index`), clearing it to `None`
when the scan raises `ValueError` (target absent or unset). -/
def active (s : LocState) : LocState :=
  match s.target with
  | some t =>
      if t ∈ s.active_list then
        { s with target_index := some (s.active_list.indexOf t) }
      else { s with target_index := none }
  | none => { s with target_index := none }

/-- The cursor/target coherence invariant of the spec: whenever
`target_index` is set, the shared target is exactly the element of the
active list at that index. -/
def Inv (s : LocState) : Prop :=
  ∀ i, s.target_index = some i →
    ∃ h : i < s.active_list.length, s.target = some (s.active_list.get ⟨i, h⟩)

/-- States reachable by the Locate-screen operations: any state with an
unset cursor (as after `__init__`), closed under list switch (`key_b`),
scroll, list load, and screen re-entry (`active`, with the shared target
possibly rewritten by the catalog screen in between). -/
inductive Reachable : LocState → Prop where
  | init (s : LocState) (h : s.target_index = none) : Reachable s
  | keyB {s : LocState} (h : Reachable s) : Reachable (key_b s).1
  | scrolled {s s' : LocState} (d : ℤ) (h : Reachable s)
      (hs : scroll_target_history s d = some s') : Reachable s'
  | loaded {s : LocState} (opt : String) (r : LoadResult) (h : Reachable s) :
      Reachable (load_list s opt r).1
  | reentered {s : LocState} (t : Option CatalogObject) (h : Reachable s) :
      Reachable (active { s with target := t })

/-- Membership test `in ["0", "-"]` of `UICatalog.key_number`. -/
def isPadDigit (c : Char) : Bool := c == '0' || c == '-'

/-- The while loop of `UICatalog.key_number`
(src/python/PiFinder/uimodules.py lines 277-287) together with its guard
`if self.designator[0] in ["0", "-"]`: starting from the leftmost slot,
replace each slot holding `'0'` or `'-'` by `'-'`, stopping at the first
slot holding anything else. -/
def collapseLeading : List Char → List Char
  | [] => []
  | c :: rest =>
      if isPadDigit c then '-' :: collapseLeading rest else c :: rest

/-- The buffer transformation of `UICatalog.key_number`
(src/python/PiFinder/uimodules.py lines 274-287): drop the leftmost slot,
append the typed digit at the right, then collapse the leading
placeholder run. -/
def key_number (buf : List Char) (d : Fin 10) : List Char :=
  collapseLeading (buf.drop 1 ++ [Nat.digitChar d.val])

/-- The normalized lookup key derived from the designator buffer
(`"".join(self.designator).replace("-", "")`, uimodules.py line 289). -/
def current_key (buf : List Char) : String :=
  String.mk (buf.filter (fun c => c ≠ '-'))

/-- The catalog name table of `UICatalog` (uimodules.py line 216). -/
def uiCatalogs : List String := ["NGC", " IC", "Mes"]

/-- Python's `str.strip()` on a character list: drop spaces from both
ends. -/
def stripSpaces (l : List Char) : List Char :=
  ((l.dropWhile (fun c => c = ' ')).reverse.dropWhile
    (fun c => c = ' ')).reverse

/-- The single-letter catalog code used in the queries:
`self.__catalogs[self.catalog_index].strip()[0]` (uimodules.py line 290). -/
def catalogCode (idx : Nat) : String :=
  match stripSpaces (uiCatalogs.getD idx "").toList with
  | c :: _ => String.mk [c]
  | [] => ""

/-- A digit string read as a natural number (the empty string reads as
zero, as SQLite's numeric conversion does). -/
def digitsToNat (l : List Char) : Nat :=
  l.foldl (fun acc c => acc * 10 + (c.toNat - 48)) 0

/-- Modelled from the spec: the numeric value of the typed designator as
the catalog store compares it.  The sqlite database and its schema are not
under src/; per §4.2 and §3 of the spec, designations are positive
integers and neighbor lookup is ordered numerically, so the digit string
(empty once placeholders are stripped, meaning "no digits yet") is read as
a natural number. -/
def designatorNum (buf : List Char) : Nat :=
  digitsToNat (buf.filter (fun c => c ≠ '-'))

/-- Modelled from the spec: the external catalog store of §4.2/§6, a list
of `CatalogObject` rows queried by
`SELECT * from objects where catalog = code and designation >/< key order
by designation asc/desc` followed by `fetchone()`: among the rows of the
given catalog strictly beyond `key`, the one with minimal (forward) or
maximal (backward) designation. -/
def neighborQuery (store : List CatalogObject) (code : String) (key : Nat)
    (forward : Bool) : Option CatalogObject :=
  if forward then
    (store.filter
        (fun o => decide (o.catalog = code ∧ key < o.designation))).argmin
      (fun o => o.designation)
  else
    (store.filter
        (fun o => decide (o.catalog = code ∧ o.designation < key))).argmax
      (fun o => o.designation)

/-- The state of the `UICatalog` screen relevant to `scroll_obj`. -/
structure CatalogState where
  catalog_index : Nat
  designator : List Char
  cat_object : Option CatalogObject
deriving DecidableEq

/-- The designator re-padding `scroll_obj` performs on a found object
(uimodules.py lines 333-338): right-align the digits of the designation in
a width-3 (Messier, index 2) or width-4 buffer of placeholders. -/
def padDesignator (catalog_index : Nat) (n : Nat) : List Char :=
  let ds := (toString n).toList
  let w := if catalog_index = 2 then 3 else 4
  List.replicate (w - ds.length) '-' ++ ds

/-- Embedding of `UICatalog.scroll_obj` (src/python/PiFinder/uimodules.py lines
309-341): query the store for the neighbor of the current key in the
given direction (`">"` is forward/key_down, `"<"` is backward/key_up);
on a hit, adopt it as the tentative object and rewrite the designator
buffer; on a miss, leave the state unchanged. -/
def scroll_obj (store : List CatalogObject) (s : CatalogState)
    (forward : Bool) : CatalogState :=
  match neighborQuery store (catalogCode s.catalog_index)
      (designatorNum s.designator) forward with
  | some o =>
      { s with cat_object := some o,
               designator := padDesignator s.catalog_index o.designation }
  | none => s

/-! Concrete catalog objects and states used by witnesses and
counterexamples. -/

def objN1 : CatalogObject := ⟨"N", 1, "Gx", "And", 10, 41⟩

def objN5 : CatalogObject := ⟨"N", 5, "Gx", "Peg", 11, 40⟩

def objN9 : CatalogObject := ⟨"N", 9, "Nb", "Ori", 83, -5⟩

def store159 : List CatalogObject := [objN1, objN5, objN9]

def catState5 : CatalogState := ⟨0, ['-', '-', '-', '5'], some objN5⟩

/-- A shared state whose three reads all succeed but whose solution has
altitude exactly `0.0` (a valid pointing at the horizon). -/
def ssAltZero : SharedState := ⟨some ⟨90, some 0⟩, some ⟨10, 20, 100⟩, some 0⟩

/-- A shared state with a complete fix: observed azimuth 120°, altitude
45°. -/
def ssZeroAz : SharedState := ⟨some ⟨120, some 45⟩, some ⟨10, 20, 100⟩, some 0⟩

/-- A concrete astrometry collaborator: every target resolves to
altitude 50°, azimuth 120°. -/
def fObs : Location → ℚ → ℚ → DateTimeStamp → ℚ × ℚ := fun _ _ _ _ => (50, 120)

/-- Locate state browsing a three-element history at cursor 2, with an
empty observing list. -/
def sCex3 : LocState :=
  ⟨[objN1, objN5, objN9], [], [objN1, objN5, objN9], some 2, some objN9⟩

/-- Locate state with an empty history but a non-empty (and active)
observing list. -/
def sCex8 : LocState := ⟨[], [objN1], [objN1], some 0, some objN1⟩

/-! ## Theorems -/

theorem pymod_eq_fract (a : ℚ) : pymod a 360 = 360 * Int.fract (a / 360) := by
  unfold pymod Int.fract
  field_simp

theorem pymod_nonneg (a : ℚ) : 0 ≤ pymod a 360 := by
  rw [pymod_eq_fract]
  have h := Int.fract_nonneg (a / 360)
  positivity

theorem pymod_lt (a : ℚ) : pymod a 360 < 360 := by
  rw [pymod_eq_fract]
  have h := Int.fract_lt_one (a / 360)
  linarith

theorem normalize_periodic (x : ℚ) :
    normalize_signed_180 (x + 360) = normalize_signed_180 x := by
  unfold normalize_signed_180 pymod
  have h : (x + 360 + 180) / 360 = (x + 180) / 360 + 1 := by ring
  rw [h, Int.floor_add_one]
  push_cast
  ring

/-- Concrete evaluation of the normalization: once the floor of
`(x + 180) / 360` is pinned to `k`, the result is `x - 360 * k`. -/
theorem normalize_eval (x : ℚ) (k : ℤ) (h1 : (k : ℚ) ≤ (x + 180) / 360)
    (h2 : (x + 180) / 360 < k + 1) :
    normalize_signed_180 x = x - 360 * k := by
  unfold normalize_signed_180 pymod
  rw [Int.floor_eq_iff.mpr ⟨h1, h2⟩]
  ring

theorem normalize_mem_Ico (x : ℚ) :
    -180 ≤ normalize_signed_180 x ∧ normalize_signed_180 x < 180 := by
  have h1 := pymod_nonneg (x + 180)
  have h2 := pymod_lt (x + 180)
  unfold normalize_signed_180
  constructor <;> linarith

/-- C1 (counterexample): the claim says the normalization maps every input
into the half-open interval `(-180, 180]`; at input `180` the code's
floored Python `%` yields exactly `-180`, which is outside `(-180, 180]`. -/
theorem c1_normalize_not_Ioc :
    normalize_signed_180 180 = -180 ∧
      ¬(-180 < normalize_signed_180 180 ∧ normalize_signed_180 180 ≤ 180) := by
  have h : normalize_signed_180 180 = -180 := by
    rw [normalize_eval 180 1 (by norm_num) (by norm_num)]; norm_num
  exact ⟨h, by rw [h]; norm_num⟩

/-- C1 (amended): the normalization `x ↦ ((x + 180) mod 360) - 180` applied
to both pointing deltas in `aim_degrees` is periodic with period 360 and
maps every real-degree input into the half-open interval `[-180, 180)`
(not `(-180, 180]`: Python's `%` is floored); the spec's examples hold:
`normalize_signed_180 361 = 1`, `normalize_signed_180 (-181) = 179`, and a
target azimuth of 1° against an observer azimuth of 359° normalizes to
+2°, not -358°. -/
theorem c1_normalize_signed_180_spec :
    (∀ x : ℚ, normalize_signed_180 (x + 360) = normalize_signed_180 x) ∧
      (∀ x : ℚ, -180 ≤ normalize_signed_180 x ∧ normalize_signed_180 x < 180) ∧
      normalize_signed_180 361 = 1 ∧
      normalize_signed_180 (-181) = 179 ∧
      normalize_signed_180 (1 - 359) = 2 := by
  refine ⟨normalize_periodic, normalize_mem_Ico, ?_, ?_, ?_⟩
  · rw [normalize_eval 361 1 (by norm_num) (by norm_num)]; norm_num
  · rw [normalize_eval (-181) (-1) (by norm_num) (by norm_num)]; norm_num
  · rw [normalize_eval (1 - 359) (-1) (by norm_num) (by norm_num)]; norm_num

theorem aim_degrees_nonePair_iff (ss : SharedState) (tgt : CatalogObject)
    (f : Location → ℚ → ℚ → DateTimeStamp → ℚ × ℚ) :
    aim_degrees ss tgt f = AimResult.nonePair ↔
      ss.location = none ∨ ss.datetime = none ∨ ss.solution = none := by
  obtain ⟨sol, loc, dt⟩ := ss
  cases loc with
  | none => simp [aim_degrees]
  | some l =>
    cases dt with
    | none => simp [aim_degrees]
    | some d =>
      cases sol with
      | none => simp [aim_degrees]
      | some s =>
        cases hA : s.Alt with
        | none => simp [aim_degrees, hA]
        | some a =>
          by_cases ha : a = 0 <;> simp [aim_degrees, hA, ha]

theorem aim_degrees_deltas (ss : SharedState) (tgt : CatalogObject)
    (f : Location → ℚ → ℚ → DateTimeStamp → ℚ × ℚ)
    (l : Location) (d : DateTimeStamp) (s : Solution) (a : ℚ)
    (h1 : ss.location = some l) (h2 : ss.datetime = some d)
    (h3 : ss.solution = some s) (h4 : s.Alt = some a) (h5 : a ≠ 0) :
    aim_degrees ss tgt f =
      AimResult.deltas (normalize_signed_180 ((f l tgt.ra tgt.dec d).2 - s.Az))
        (normalize_signed_180 ((f l tgt.ra tgt.dec d).1 - a)) := by
  obtain ⟨sol, loc, dt⟩ := ss
  simp only at h1 h2 h3
  subst h1 h2 h3
  simp [aim_degrees, h4, h5]

theorem aim_degrees_noReturn (ss : SharedState) (tgt : CatalogObject)
    (f : Location → ℚ → ℚ → DateTimeStamp → ℚ × ℚ)
    (l : Location) (d : DateTimeStamp) (s : Solution)
    (h1 : ss.location = some l) (h2 : ss.datetime = some d)
    (h3 : ss.solution = some s) (h4 : altTruthy s.Alt = false) :
    aim_degrees ss tgt f = AimResult.noReturn := by
  obtain ⟨sol, loc, dt⟩ := ss
  simp only at h1 h2 h3
  subst h1 h2 h3
  cases hA : s.Alt with
  | none => simp [aim_degrees, hA]
  | some a =>
    rw [hA] at h4
    have ha : a = 0 := by
      by_contra hc
      simp [altTruthy, hc] at h4
    simp [aim_degrees, hA, ha]

/-- C2 (counterexample): with location, datetime and solution all present
but the solved altitude exactly `0.0`, `aim_degrees` does not return a
delta pair (it falls through, returning the implicit Python `None`) —
contradicting "returns none precisely when any of observer location,
datetime, or solved position is missing". -/
theorem c2_alt_zero_not_missing_yet_no_pair :
    ssAltZero.location ≠ none ∧ ssAltZero.datetime ≠ none ∧
      ssAltZero.solution ≠ none ∧
      aim_degrees ssAltZero objN1 fObs = AimResult.noReturn := by
  refine ⟨by simp [ssAltZero], by simp [ssAltZero], by simp [ssAltZero], ?_⟩
  exact aim_degrees_noReturn _ _ _ ⟨10, 20, 100⟩ 0 ⟨90, some 0⟩ rfl rfl rfl rfl

/-- C2 (amended): `aim_degrees` returns the explicit no-pair `(None, None)`
exactly when location, datetime or solution is missing; when all three are
present it returns the pair of normalized deltas if the solved altitude is
truthy (present and nonzero), and returns no pair (the implicit `None`)
when the solved altitude is falsy (`None` or exactly `0.0`). -/
theorem c2_aim_degrees_spec :
    ∀ (ss : SharedState) (tgt : CatalogObject)
      (f : Location → ℚ → ℚ → DateTimeStamp → ℚ × ℚ),
      (aim_degrees ss tgt f = AimResult.nonePair ↔
        ss.location = none ∨ ss.datetime = none ∨ ss.solution = none) ∧
      (∀ l d s a, ss.location = some l → ss.datetime = some d →
        ss.solution = some s → s.Alt = some a → a ≠ 0 →
        aim_degrees ss tgt f =
          AimResult.deltas
            (normalize_signed_180 ((f l tgt.ra tgt.dec d).2 - s.Az))
            (normalize_signed_180 ((f l tgt.ra tgt.dec d).1 - a))) ∧
      (∀ l d s, ss.location = some l → ss.datetime = some d →
        ss.solution = some s → altTruthy s.Alt = false →
        aim_degrees ss tgt f = AimResult.noReturn) :=
  fun ss tgt f =>
    ⟨aim_degrees_nonePair_iff ss tgt f,
     fun l d s a h1 h2 h3 h4 h5 => aim_degrees_deltas ss tgt f l d s a h1 h2 h3 h4 h5,
     fun l d s h1 h2 h3 h4 => aim_degrees_noReturn ss tgt f l d s h1 h2 h3 h4⟩

/-- C2 (witness): for the concrete fix `ssZeroAz` the theorem yields the
concrete delta pair. -/
theorem c2_aim_degrees_spec_witness :
    aim_degrees ssZeroAz objN1 fObs =
      AimResult.deltas
        (normalize_signed_180 ((fObs ⟨10, 20, 100⟩ objN1.ra objN1.dec 0).2 - 120))
        (normalize_signed_180 ((fObs ⟨10, 20, 100⟩ objN1.ra objN1.dec 0).1 - 45)) :=
  (c2_aim_degrees_spec ssZeroAz objN1 fObs).2.1 ⟨10, 20, 100⟩ 0 ⟨120, some 45⟩ 45
    rfl rfl rfl rfl (by norm_num)

/-- C10: whenever `aim_degrees` does return a delta pair whose azimuth
delta is exactly `0.0`, the Locate screen's `update` renders the
"---.-" / "--.-" placeholder (the guard is a truthiness test on the
azimuth delta), and only a nonzero azimuth delta renders the pointing
numbers. -/
theorem c10_zero_az_renders_placeholder :
    (∀ (ss : SharedState) (tgt : CatalogObject)
        (f : Location → ℚ → ℚ → DateTimeStamp → ℚ × ℚ) (alt : ℚ),
        aim_degrees ss tgt f = AimResult.deltas 0 alt →
        update_pointing (aim_degrees ss tgt f) =
          some PointingDisplay.placeholder) ∧
      ∀ az alt : ℚ, az ≠ 0 →
        update_pointing (AimResult.deltas az alt) =
          some (PointingDisplay.numbers az alt) := by
  constructor
  · intro ss tgt f alt h
    rw [h]
    simp [update_pointing]
  · intro az alt h
    simp [update_pointing, h]

/-- C10 (witness): a concrete fix whose target azimuth equals the observed
azimuth (both 120°) yields the placeholder although a delta pair was
returned. -/
theorem c10_zero_az_renders_placeholder_witness :
    update_pointing (aim_degrees ssZeroAz objN1 fObs) =
      some PointingDisplay.placeholder := by
  apply c10_zero_az_renders_placeholder.1 ssZeroAz objN1 fObs 5
  have h0 : normalize_signed_180 (120 - 120 : ℚ) = 0 := by
    rw [normalize_eval _ 0 (by norm_num) (by norm_num)]; norm_num
  have h5 : normalize_signed_180 (50 - 45 : ℚ) = 5 := by
    rw [normalize_eval _ 0 (by norm_num) (by norm_num)]; norm_num
  have hd := aim_degrees_deltas ssZeroAz objN1 fObs ⟨10, 20, 100⟩ 0
    ⟨120, some 45⟩ 45 rfl rfl rfl rfl (by norm_num)
  rw [hd]
  simp only [fObs] at h0 h5 ⊢
  rw [h0, h5]

/-- C3 (counterexample): switching from a non-empty history (cursor at
index 2) toward an empty observing list is refused with the "No Obs List"
message and leaves the active list unchanged — but the cursor index is
cleared to unset, not left at 2 as the claim ("both the active list and
the cursor index are exactly what they were before") requires. -/
theorem c3_refused_switch_clears_cursor :
    sCex3.target_index = some 2 ∧
      (key_b sCex3).1.active_list = sCex3.active_list ∧
      (key_b sCex3).1.target_index = none ∧
      (key_b sCex3).2 = some "No Obs List" := by
  refine ⟨rfl, ?_, ?_, ?_⟩ <;> rfl

/-- C3 (amended): a list switch whose destination list (observing when the
active list is the history list, history otherwise) is empty is refused:
the active list, both stored lists and the shared target are exactly what
they were before, an EmptyOperand-style message ("No Obs List" / "No
History") is reported rather than a fatal error — but the cursor index is
cleared to unset by the refused switch. -/
theorem c3_empty_switch_refused :
    ∀ s : LocState,
      (s.active_list = s.history_list → s.observing_list = [] →
        (key_b s).1 = { s with target_index := none } ∧
          (key_b s).2 = some "No Obs List") ∧
      (s.active_list ≠ s.history_list → s.history_list = [] →
        (key_b s).1 = { s with target_index := none } ∧
          (key_b s).2 = some "No History") := by
  intro s
  constructor
  · intro hc he
    rw [key_b]
    simp [hc, he]
  · intro hc he
    have hc' : s.active_list ≠ [] := by rw [← he]; exact hc
    rw [key_b]
    simp [he, hc']

/-- C3 (witness): the refused switch on the concrete state `sCex3` leaves
everything but the cursor index unchanged. -/
theorem c3_empty_switch_refused_witness :
    (key_b sCex3).1 = { sCex3 with target_index := none } ∧
      (key_b sCex3).2 = some "No Obs List" :=
  (c3_empty_switch_refused sCex3).1 rfl rfl

/-- C8 (counterexample): with an empty history but a non-empty active
(observing) list, `save_list` with scope History issues a write — of the
empty history list — and reports success, contradicting "fails ... with no
write issued ... when the history/active_list content to save is empty". -/
theorem c8_empty_history_still_written :
    sCex8.history_list = [] ∧
      (save_list sCex8 "History" 0).1 = some [] ∧
      (save_list sCex8 "History" 0).2 = some "Saved list - 0" := by
  refine ⟨rfl, ?_, ?_⟩ <;> rfl

/-- C8 (amended): for either scope, `save_list` refuses with the
"No objects" message and no write exactly when the *active* list is empty
(that is the emptiness check the code performs, whatever the scope);
otherwise it writes exactly the list selected by the scope — history for
History, observing otherwise, even if that list is itself empty — and
reports success. -/
theorem c8_save_list_spec :
    ∀ (s : LocState) (opt : String) (cnt : Nat),
      opt = "History" ∨ opt = "Observ" →
      (s.active_list = [] →
        (save_list s opt cnt).1 = none ∧
          (save_list s opt cnt).2 = some "No objects") ∧
      (s.active_list ≠ [] →
        (save_list s opt cnt).1 =
          some (if opt = "History" then s.history_list else s.observing_list) ∧
          (save_list s opt cnt).2 = some ("Saved list - " ++ toString cnt)) := by
  intro s opt cnt hopt
  have hnc : ¬opt = "CANCEL" := by
    rcases hopt with rfl | rfl <;> decide
  constructor
  · intro he
    rw [save_list]
    simp [hnc, he]
  · intro he
    have hlen : ¬s.active_list.length = 0 := by
      simpa [List.length_eq_zero] using he
    rcases hopt with rfl | rfl
    · rw [save_list]
      simp [hnc, hlen]
    · rw [save_list]
      simp [hnc, hlen]

/-- C8 (witness): on the concrete state `sCex8` with scope Observ the
theorem yields the written observing list and the success message. -/
theorem c8_save_list_spec_witness :
    (save_list sCex8 "Observ" 0).1 =
      some (if ("Observ" : String) = "History" then sCex8.history_list
        else sCex8.observing_list) ∧
      (save_list sCex8 "Observ" 0).2 = some ("Saved list - " ++ toString 0) :=
  ((c8_save_list_spec sCex8 "Observ" 0 (Or.inr rfl)).2 (by decide))

/-- C7: a load whose retrieval errors, or whose read result parses to zero
objects, only reports a message ("Err! ..." / "No matches") and leaves the
whole prior state — observing list, active list, cursor index and current
target — unchanged; only a successful non-empty load mutates the state
(installing the catalog as observing and active list, cursor 0, target its
first element) and reports "Loaded n of m". -/
theorem c7_load_list_preserves_state_on_failure :
    ∀ (s : LocState) (opt : String) (r : LoadResult), opt ≠ "CANCEL" →
      (∀ m, r = LoadResult.error m →
        (load_list s opt r).1 = s ∧
          (load_list s opt r).2 = some ("Err! " ++ m)) ∧
      (∀ p, r = LoadResult.ok [] p →
        (load_list s opt r).1 = s ∧
          (load_list s opt r).2 = some "No matches") ∧
      (∀ cat p (h : 0 < cat.length), r = LoadResult.ok cat p →
        (load_list s opt r).1 =
          { s with observing_list := cat, active_list := cat,
                   target_index := some 0,
                   target := some (cat.get ⟨0, h⟩) } ∧
          (load_list s opt r).2 =
            some ("Loaded " ++ toString cat.length ++ " of " ++ toString p)) := by
  intro s opt r hopt
  refine ⟨?_, ?_, ?_⟩
  · rintro m rfl
    rw [load_list]
    simp [hopt]
  · rintro p rfl
    rw [load_list]
    simp [hopt]
  · rintro cat p h rfl
    rw [load_list]
    simp [hopt, h]

/-- C7 (witness): a concrete error result and a concrete one-element load
behave as the theorem states. -/
theorem c7_load_list_preserves_state_on_failure_witness :
    ((load_list sCex3 "mylist" (LoadResult.error "sqlite")).1 = sCex3 ∧
      (load_list sCex3 "mylist" (LoadResult.error "sqlite")).2 =
        some ("Err! " ++ "sqlite")) ∧
      (load_list sCex3 "mylist" (LoadResult.ok [objN1] 3)).1 =
        { sCex3 with observing_list := [objN1], active_list := [objN1],
                     target_index := some 0,
                     target := some ([objN1].get ⟨0, by decide⟩) } ∧
      (load_list sCex3 "mylist" (LoadResult.ok [objN1] 3)).2 =
        some ("Loaded " ++ toString (List.length [objN1]) ++ " of " ++ toString 3) :=
  ⟨(c7_load_list_preserves_state_on_failure sCex3 "mylist"
      (LoadResult.error "sqlite") (by decide)).1 "sqlite" rfl,
   (c7_load_list_preserves_state_on_failure sCex3 "mylist"
      (LoadResult.ok [objN1] 3) (by decide)).2.2 [objN1] 3 (by decide) rfl⟩

/-- C9: with the cursor set at a valid index, scrolling by ±1 never raises:
it moves the cursor by exactly one position at every interior index, is
clamped with no wraparound (`+1` at the last index and `-1` at index 0
leave the index unchanged, so repeated scrolling at a boundary stays a
no-op), and never changes the lists themselves. -/
theorem scrollIndex_toNat_lt (len i : Nat) (d : ℤ) (hi : i < len) :
    (scrollIndex len i d).toNat < len := by
  unfold scrollIndex pyClampHigh pyClampLow
  split_ifs <;> omega

/-- With the cursor set at a valid index, `scroll_target_history` always
succeeds and moves the cursor to the clamped index, touching nothing
else. -/
theorem scroll_some (s : LocState) (i : Nat) (d : ℤ)
    (hidx : s.target_index = some i) (hi : i < s.active_list.length) :
    scroll_target_history s d =
      some { s with
        target_index := some (scrollIndex s.active_list.length i d).toNat,
        target := some (s.active_list.get
          ⟨(scrollIndex s.active_list.length i d).toNat,
           scrollIndex_toNat_lt _ _ _ hi⟩) } := by
  rw [scroll_target_history, hidx]
  exact dif_pos (scrollIndex_toNat_lt _ _ _ hi)

theorem c9_scroll_clamped :
    ∀ (s : LocState) (i : Nat), s.target_index = some i →
      i < s.active_list.length →
      (i + 1 < s.active_list.length →
        ∃ s', scroll_target_history s 1 = some s' ∧
          s'.target_index = some (i + 1) ∧ s'.active_list = s.active_list) ∧
      (i + 1 = s.active_list.length →
        ∃ s', scroll_target_history s 1 = some s' ∧
          s'.target_index = some i ∧ s'.active_list = s.active_list) ∧
      (0 < i →
        ∃ s', scroll_target_history s (-1) = some s' ∧
          s'.target_index = some (i - 1) ∧ s'.active_list = s.active_list) ∧
      (i = 0 →
        ∃ s', scroll_target_history s (-1) = some s' ∧
          s'.target_index = some 0 ∧ s'.active_list = s.active_list) := by
  intro s i hi hlen
  have hval : ∀ d : ℤ, ∃ s', scroll_target_history s d = some s' ∧
      s'.target_index = some (scrollIndex s.active_list.length i d).toNat ∧
      s'.active_list = s.active_list :=
    fun d => ⟨_, scroll_some s i d hi hlen, rfl, rfl⟩
  refine ⟨?_, ?_, ?_, ?_⟩
  · intro hint
    obtain ⟨s', h1, h2, h3⟩ := hval 1
    refine ⟨s', h1, ?_, h3⟩
    rw [h2]
    congr 1
    unfold scrollIndex pyClampHigh pyClampLow
    split_ifs <;> omega
  · intro hlast
    obtain ⟨s', h1, h2, h3⟩ := hval 1
    refine ⟨s', h1, ?_, h3⟩
    rw [h2]
    congr 1
    unfold scrollIndex pyClampHigh pyClampLow
    split_ifs <;> omega
  · intro hpos
    obtain ⟨s', h1, h2, h3⟩ := hval (-1)
    refine ⟨s', h1, ?_, h3⟩
    rw [h2]
    congr 1
    unfold scrollIndex pyClampHigh pyClampLow
    split_ifs <;> omega
  · intro hzero
    obtain ⟨s', h1, h2, h3⟩ := hval (-1)
    refine ⟨s', h1, ?_, h3⟩
    rw [h2]
    congr 1
    unfold scrollIndex pyClampHigh pyClampLow
    split_ifs <;> omega

/-- C9 (witness): on the concrete three-element history at cursor 2 (the
last index), scrolling down is a no-op on the index and scrolling up moves
to index 1. -/
theorem c9_scroll_clamped_witness :
    (∃ s', scroll_target_history sCex3 1 = some s' ∧
      s'.target_index = some 2 ∧ s'.active_list = sCex3.active_list) ∧
      ∃ s', scroll_target_history sCex3 (-1) = some s' ∧
        s'.target_index = some 1 ∧ s'.active_list = sCex3.active_list :=
  ⟨(c9_scroll_clamped sCex3 2 rfl (by decide)).2.1 (by decide),
   (c9_scroll_clamped sCex3 2 rfl (by decide)).2.2.1 (by decide)⟩

theorem collapseLeading_eq (l : List Char) :
    collapseLeading l =
      (l.takeWhile isPadDigit).map (fun _ => '-') ++ l.dropWhile isPadDigit := by
  induction l with
  | nil => rfl
  | cons c rest ih =>
    by_cases h : isPadDigit c = true
    · simp [collapseLeading, List.takeWhile_cons, List.dropWhile_cons, h, ih]
    · simp [collapseLeading, List.takeWhile_cons, List.dropWhile_cons, h]

/-- C4: each digit push shifts the buffer left by one slot, appends the
digit at the rightmost slot, and then replaces the maximal leading run of
slots holding `'0'` or `'-'` by the placeholder `'-'`, stopping at the
first slot holding a nonzero digit (the `takeWhile`/`dropWhile` split is
exactly that maximal leading run); consequently pushing 0, 0, 7 into a
fresh width-4 buffer yields the normalized key `"7"`. -/
theorem c4_key_number_spec :
    (∀ (buf : List Char) (d : Fin 10),
        key_number buf d =
          ((buf.drop 1 ++ [Nat.digitChar d.val]).takeWhile isPadDigit).map
              (fun _ => '-') ++
            (buf.drop 1 ++ [Nat.digitChar d.val]).dropWhile isPadDigit) ∧
      current_key (key_number (key_number (key_number
          (List.replicate 4 '-') 0) 0) 7) = "7" := by
  constructor
  · intro buf d
    exact collapseLeading_eq _
  · decide

theorem inv_key_b (s : LocState) (_h : Inv s) : Inv (key_b s).1 := by
  rw [key_b]
  split_ifs with hc h1 h2
  · intro i hi
    injection hi with hi
    subst hi
    exact ⟨h1, rfl⟩
  · intro i hi
    cases hi
  · intro i hi
    injection hi with hi
    subst hi
    exact ⟨Nat.sub_lt h2 Nat.one_pos, rfl⟩
  · intro i hi
    cases hi

theorem inv_load (s : LocState) (opt : String) (r : LoadResult)
    (h : Inv s) : Inv (load_list s opt r).1 := by
  cases r with
  | error m =>
    rw [load_list]
    by_cases hcan : opt = "CANCEL"
    · rw [if_pos hcan]
      exact h
    · rw [if_neg hcan]
      exact h
  | ok cat p =>
    rw [load_list]
    by_cases hcan : opt = "CANCEL"
    · rw [if_pos hcan]
      exact h
    · rw [if_neg hcan]
      by_cases hlen : 0 < cat.length
      · rw [dif_pos hlen]
        intro i hi
        injection hi with hi
        subst hi
        exact ⟨hlen, rfl⟩
      · rw [dif_neg hlen]
        exact h

theorem inv_scroll (s s' : LocState) (d : ℤ)
    (hs : scroll_target_history s d = some s') : Inv s' := by
  unfold scroll_target_history at hs
  split at hs
  · next heq =>
      injection hs with hs
      subst hs
      intro j hj
      rw [heq] at hj
      cases hj
  · next i heq =>
      split at hs
      · next hlt =>
          injection hs with hs
          subst hs
          intro j hj
          injection hj with hj
          subst hj
          exact ⟨hlt, rfl⟩
      · cases hs

theorem inv_active (s : LocState) : Inv (active s) := by
  unfold active
  split
  · next t heq =>
      split_ifs with hmem
      · intro j hj
        injection hj with hj
        subst hj
        refine ⟨List.indexOf_lt_length.mpr hmem, ?_⟩
        rw [heq, List.indexOf_get]
      · intro j hj
        cases hj
  · next heq =>
      intro j hj
      cases hj

theorem reachable_inv (s : LocState) (h : Reachable s) : Inv s := by
  induction h with
  | init s h0 =>
      intro j hj
      rw [h0] at hj
      cases hj
  | keyB h ih => exact inv_key_b _ ih
  | scrolled d h hs ih => exact inv_scroll _ _ d hs
  | loaded opt r h ih => exact inv_load _ opt r ih
  | reentered t h ih => exact inv_active _

/-- C5: in every state reachable by the Locate-screen operations (list
switch, scroll, list load, and screen re-entry, the latter with the shared
target possibly rewritten in between), whenever the cursor index is set
the shared target is exactly the element of the active list at that index;
and on re-entry, when the shared target is not found in the active list by
the linear scan (or is unset), the cursor index is cleared rather than an
error raised. -/
theorem c5_cursor_invariant :
    (∀ s : LocState, Reachable s → Inv s) ∧
      ∀ s : LocState,
        (∀ t, s.target = some t → t ∉ s.active_list) →
        (active s).target_index = none := by
  constructor
  · exact fun s h => reachable_inv s h
  · intro s hnot
    unfold active
    split
    · next t heq =>
        rw [if_neg (hnot t heq)]
    · rfl

/-- C5 (witness): the initial state satisfies the invariant, and re-entry
with a target absent from the active list clears the cursor. -/
theorem c5_cursor_invariant_witness :
    Inv (⟨[], [], [], none, none⟩ : LocState) ∧
      (active ⟨[objN1], [], [objN1], none, some objN5⟩).target_index = none :=
  ⟨c5_cursor_invariant.1 _ (Reachable.init _ rfl),
   c5_cursor_invariant.2 ⟨[objN1], [], [objN1], none, some objN5⟩
     (fun t ht => by
        injection ht with ht
        subst ht
        decide)⟩

/-- C6: neighbor lookup over a catalog ordered numerically by designation:
in the forward direction `scroll_obj`'s query returns the stored object of
the requested catalog with the smallest designation strictly greater than
the current key, and in the backward direction the largest strictly less;
in particular, for a catalog with designations 1, 5, 9 under code `N`,
forward from key 5 adopts designation 9 and backward from key 5 adopts
designation 1. -/
theorem c6_neighbor_spec :
    (∀ (store : List CatalogObject) (code : String) (key : Nat)
        (o : CatalogObject),
        neighborQuery store code key true = some o →
        o ∈ store ∧ o.catalog = code ∧ key < o.designation ∧
          ∀ o' ∈ store, o'.catalog = code → key < o'.designation →
            o.designation ≤ o'.designation) ∧
      (∀ (store : List CatalogObject) (code : String) (key : Nat)
        (o : CatalogObject),
        neighborQuery store code key false = some o →
        o ∈ store ∧ o.catalog = code ∧ o.designation < key ∧
          ∀ o' ∈ store, o'.catalog = code → o'.designation < key →
            o'.designation ≤ o.designation) ∧
      (scroll_obj store159 catState5 true).cat_object = some objN9 ∧
      (scroll_obj store159 catState5 false).cat_object = some objN1 := by
  refine ⟨?_, ?_, ?_, ?_⟩
  · intro store code key o h
    rw [neighborQuery, if_pos rfl] at h
    have hm := List.argmin_mem h
    rw [List.mem_filter] at hm
    obtain ⟨hmem, hp⟩ := hm
    have hp' := of_decide_eq_true hp
    refine ⟨hmem, hp'.1, hp'.2, ?_⟩
    intro o' ho' hc hk
    exact List.le_of_mem_argmin
      (List.mem_filter.mpr ⟨ho', decide_eq_true ⟨hc, hk⟩⟩) h
  · intro store code key o h
    rw [neighborQuery, if_neg (by simp)] at h
    have hm := List.argmax_mem h
    rw [List.mem_filter] at hm
    obtain ⟨hmem, hp⟩ := hm
    have hp' := of_decide_eq_true hp
    refine ⟨hmem, hp'.1, hp'.2, ?_⟩
    intro o' ho' hc hk
    exact List.le_of_mem_argmax
      (List.mem_filter.mpr ⟨ho', decide_eq_true ⟨hc, hk⟩⟩) h
  · decide
  · decide

/-- C6 (witness): the forward neighbor of key 5 in the three-object store
is a member of the requested catalog beyond the key. -/
theorem c6_neighbor_spec_witness :
    objN9 ∈ store159 ∧ objN9.catalog = "N" ∧ 5 < objN9.designation :=
  have h := c6_neighbor_spec.1 store159 "N" 5 objN9 (by decide)
  ⟨h.1, h.2.1, h.2.2.1⟩

end PiFinder
